import Mathlib

/-!
Shallow embedding of `src/ai_generator.py` (TrendSage).

The module has two functions:
* `generate_content_ideas topic category` — attempts a call to an external
  generative-text service and parses the JSON payload; on any failure it
  degrades to the fallback generator.
* `generate_mock_content_ideas topic category` — a pure template table,
  parameterised by the topic string.

The external environment (the `OPENAI_API_KEY` variable, the client handle
`openai`, the outcome of the network call together with `json.loads`) is
passed as explicit arguments, so that the Python control flow around the
`try`/`except` block becomes a total Lean function.
-/

/-- A social-media content idea, mirroring the dictionaries built by
`generate_mock_content_ideas` in `src/ai_generator.py`. -/
structure ContentIdea where
  title : String
  description : String
  content_type : String
  virality : String
  target_audience : String
  category : String
deriving DecidableEq, Repr, Inhabited

/-- The `humor` entry of the `templates` dict (lines 97-108). -/
def humorIdeas (topic : String) : List ContentIdea :=
  [{ title := "When " ++ topic ++ " Goes Hilariously Wrong",
     description := "A compilation of funny " ++ topic ++ " fails that everyone can relate to.",
     content_type := "video", virality := "high",
     target_audience := "General audience with interest in comedy",
     category := "humor" },
   { title := topic ++ " Expectations vs. Reality",
     description := "Contrasting what people expect from " ++ topic ++ " with the often-amusing reality.",
     content_type := "reel", virality := "high",
     target_audience := "Young adults and teens",
     category := "humor" }]

/-- The `tech` entry of the `templates` dict (lines 109-120). -/
def techIdeas (topic : String) : List ContentIdea :=
  [{ title := "5 " ++ topic ++ " Hacks You Never Knew Existed",
     description := "Quick technical tips to master " ++ topic ++ " that most people don\x27t know about.",
     content_type := "tutorial", virality := "medium",
     target_audience := "Tech enthusiasts and early adopters",
     category := "tech" },
   { title := "The Future of " ++ topic ++ ": 2025 Predictions",
     description := "Analysis of upcoming trends and technologies related to " ++ topic ++ ".",
     content_type := "post", virality := "medium",
     target_audience := "Industry professionals and tech followers",
     category := "tech" }]

/-- The `finance` entry of the `templates` dict (lines 121-132). -/
def financeIdeas (topic : String) : List ContentIdea :=
  [{ title := "How " ++ topic ++ " Can Save You $1000 This Month",
     description := "Practical financial strategies using " ++ topic ++ " for immediate savings.",
     content_type := "video", virality := "medium",
     target_audience := "Budget-conscious adults",
     category := "finance" },
   { title := "Investing in " ++ topic ++ ": Beginner\x27s Guide",
     description := "Step-by-step approach to understanding investment opportunities in " ++ topic ++ ".",
     content_type := "series", virality := "low",
     target_audience := "New investors",
     category := "finance" }]

/-- The `fitness` entry of the `templates` dict (lines 133-144). -/
def fitnessIdeas (topic : String) : List ContentIdea :=
  [{ title := "10-Minute " ++ topic ++ " Workout for Busy People",
     description := "Quick and effective workout routine incorporating " ++ topic ++ " principles.",
     content_type := "reel", virality := "high",
     target_audience := "Busy professionals interested in fitness",
     category := "fitness" },
   { title := topic ++ " Transformation Challenge",
     description := "30-day fitness journey using " ++ topic ++ " methods with visible results.",
     content_type := "series", virality := "medium",
     target_audience := "Fitness enthusiasts looking for challenges",
     category := "fitness" }]

/-- The `education` entry of the `templates` dict (lines 145-156). -/
def educationIdeas (topic : String) : List ContentIdea :=
  [{ title := topic ++ " Explained in 60 Seconds",
     description := "Quick, easy-to-understand explanation of " ++ topic ++ " for beginners.",
     content_type := "reel", virality := "medium",
     target_audience := "Students and lifelong learners",
     category := "education" },
   { title := "What Schools Don\x27t Teach About " ++ topic,
     description := "Lesser-known but important facts about " ++ topic ++ " that aren\x27t in textbooks.",
     content_type := "video", virality := "medium",
     target_audience := "Curious minds and alternative education followers",
     category := "education" }]

/-- The `lifestyle` entry of the `templates` dict (lines 157-168). -/
def lifestyleIdeas (topic : String) : List ContentIdea :=
  [{ title := "Day in the Life: " ++ topic ++ " Edition",
     description := "Follow-along vlog showing how " ++ topic ++ " integrates into daily routines.",
     content_type := "vlog", virality := "medium",
     target_audience := "Lifestyle content followers",
     category := "lifestyle" },
   { title := topic ++ " Room Makeover",
     description := "Transforming a space with " ++ topic ++ "-inspired aesthetics and functionality.",
     content_type := "video", virality := "medium",
     target_audience := "Home decor and design enthusiasts",
     category := "lifestyle" }]

/-- The `templates` dict of `generate_mock_content_ideas` (lines 96-169), as an
association list in Python dict insertion order. -/
def templates (topic : String) : List (String × List ContentIdea) :=
  [("humor", humorIdeas topic),
   ("tech", techIdeas topic),
   ("finance", financeIdeas topic),
   ("fitness", fitnessIdeas topic),
   ("education", educationIdeas topic),
   ("lifestyle", lifestyleIdeas topic)]

/-- The `for cat in templates` loop of the `category == "all"` branch
(lines 176-181): append the first idea of each category list to the
accumulator and stop as soon as the accumulator holds 5 ideas. -/
def mixLoop : List (List ContentIdea) → List ContentIdea → List ContentIdea
  | [], acc => acc
  | l :: rest, acc =>
    let acc' := acc ++ [l.headI]
    if 5 ≤ acc'.length then acc' else mixLoop rest acc'

/-- `generate_mock_content_ideas(topic, category)` (lines 91-181).
For a specific category, `templates.get` with the humor list as default;
for `all`, the capped mix of first ideas. -/
def generate_mock_content_ideas (topic : String) (category : String) : List ContentIdea :=
  if category ≠ "all" then
    ((templates topic).lookup category).getD (humorIdeas topic)
  else
    mixLoop ((templates topic).map Prod.snd) []

/-- A JSON value, as produced by `json.loads` on the external payload. -/
inductive Json where
  | null : Json
  | bool (b : Bool) : Json
  | num (n : Int) : Json
  | str (s : String) : Json
  | arr (elems : List Json) : Json
  | obj (fields : List (String × Json)) : Json

/-- The observable outcome of the external interaction: either some exception
was raised during the call to `openai.chat.completions.create` or during
`json.loads` (the `except` path of lines 87-89), or a JSON payload was
successfully decoded. -/
inductive ApiOutcome where
  | failure (msg : String) : ApiOutcome
  | success (payload : Json) : ApiOutcome

/-- What `generate_content_ideas` hands back to its caller: either the value
extracted from the external payload, or the mock ideas. -/
inductive GenResult where
  | api (j : Json) : GenResult
  | mock (ideas : List ContentIdea) : GenResult

/-- Python truthiness of `OPENAI_API_KEY`: `not OPENAI_API_KEY` holds when the
environment variable is absent or the empty string. -/
def keyFalsy (apiKey : Option String) : Bool :=
  (apiKey.getD "") == ""

/-- `generate_content_ideas(topic, category)` (lines 28-89). The environment
variable, the client handle (`none` when `OpenAI(...)` raised at import time,
line 15) and the outcome of the external call are explicit arguments.

Control flow: if the key is falsy or the client is `None`, return mock data
(lines 31-33); if the call or `json.loads` raised, the `except` handler
returns mock data (lines 87-89); otherwise dispatch on the payload shape
(lines 79-85): a dict containing the key `ideas` yields the value stored under that key,
a list is returned as-is, anything else falls back to mock data. -/
def generate_content_ideas (apiKey : Option String) (client : Option Unit)
    (outcome : ApiOutcome) (topic : String) (category : String) : GenResult :=
  if keyFalsy apiKey || client.isNone then
    .mock (generate_mock_content_ideas topic category)
  else
    match outcome with
    | .failure _ => .mock (generate_mock_content_ideas topic category)
    | .success payload =>
      match payload with
      | .obj fields =>
        match fields.lookup "ideas" with
        | some v => .api v
        | none => .mock (generate_mock_content_ideas topic category)
      | .arr elems => .api (.arr elems)
      | _ => .mock (generate_mock_content_ideas topic category)

/-- Whether the decoded payload is of a shape that lines 79-85 send to the
fallback: neither a list, nor a dict containing the key `ideas`. -/
def badShape : Json → Bool
  | .arr _ => false
  | .obj fields => (fields.lookup "ideas").isNone
  | _ => true

/-! ## Helper lemmas -/

lemma string_length_append (a b : String) : (a ++ b).length = a.length + b.length := by
  cases a
  cases b
  simp [String.length, String.append]

lemma title_len_mid (p s t : String) (h : p.length + s.length ≤ 34) :
    (p ++ t ++ s).length ≤ t.length + 34 := by
  rw [string_length_append, string_length_append]
  omega

lemma title_len_end (p t : String) (h : p.length ≤ 34) :
    (p ++ t).length ≤ t.length + 34 := by
  rw [string_length_append]
  omega

lemma title_len_start (s t : String) (h : s.length ≤ 34) :
    (t ++ s).length ≤ t.length + 34 := by
  rw [string_length_append]
  omega

lemma lookup_templates_none (t c : String)
    (h1 : c ≠ "humor") (h2 : c ≠ "tech") (h3 : c ≠ "finance")
    (h4 : c ≠ "fitness") (h5 : c ≠ "education") (h6 : c ≠ "lifestyle") :
    (templates t).lookup c = none := by
  have e1 : (c == "humor") = false := beq_eq_false_iff_ne.mpr h1
  have e2 : (c == "tech") = false := beq_eq_false_iff_ne.mpr h2
  have e3 : (c == "finance") = false := beq_eq_false_iff_ne.mpr h3
  have e4 : (c == "fitness") = false := beq_eq_false_iff_ne.mpr h4
  have e5 : (c == "education") = false := beq_eq_false_iff_ne.mpr h5
  have e6 : (c == "lifestyle") = false := beq_eq_false_iff_ne.mpr h6
  simp [templates, List.lookup, e1, e2, e3, e4, e5, e6]

lemma mock_all_eq (t : String) :
    generate_mock_content_ideas t "all" =
      [(humorIdeas t).headI, (techIdeas t).headI, (financeIdeas t).headI,
       (fitnessIdeas t).headI, (educationIdeas t).headI] := rfl

lemma mock_all_map_category (t : String) :
    (generate_mock_content_ideas t "all").map ContentIdea.category =
      ["humor", "tech", "finance", "fitness", "education"] := rfl

lemma mock_of_category_cases (t c : String) :
    generate_mock_content_ideas t c = humorIdeas t ∨
    generate_mock_content_ideas t c = techIdeas t ∨
    generate_mock_content_ideas t c = financeIdeas t ∨
    generate_mock_content_ideas t c = fitnessIdeas t ∨
    generate_mock_content_ideas t c = educationIdeas t ∨
    generate_mock_content_ideas t c = lifestyleIdeas t ∨
    generate_mock_content_ideas t c = generate_mock_content_ideas t "all" := by
  by_cases hall : c = "all"
  · subst hall
    have hx : generate_mock_content_ideas t "all" = generate_mock_content_ideas t "all" := rfl
    tauto
  by_cases h1 : c = "humor"
  · subst h1
    have hx : generate_mock_content_ideas t "humor" = humorIdeas t := rfl
    tauto
  by_cases h2 : c = "tech"
  · subst h2
    have hx : generate_mock_content_ideas t "tech" = techIdeas t := rfl
    tauto
  by_cases h3 : c = "finance"
  · subst h3
    have hx : generate_mock_content_ideas t "finance" = financeIdeas t := rfl
    tauto
  by_cases h4 : c = "fitness"
  · subst h4
    have hx : generate_mock_content_ideas t "fitness" = fitnessIdeas t := rfl
    tauto
  by_cases h5 : c = "education"
  · subst h5
    have hx : generate_mock_content_ideas t "education" = educationIdeas t := rfl
    tauto
  by_cases h6 : c = "lifestyle"
  · subst h6
    have hx : generate_mock_content_ideas t "lifestyle" = lifestyleIdeas t := rfl
    tauto
  · refine Or.inl ?_
    unfold generate_mock_content_ideas
    rw [if_pos hall, lookup_templates_none t c h1 h2 h3 h4 h5 h6]
    rfl

lemma mem_mock_cases (t c : String) (idea : ContentIdea)
    (h : idea ∈ generate_mock_content_ideas t c) :
    idea ∈ humorIdeas t ∨ idea ∈ techIdeas t ∨ idea ∈ financeIdeas t ∨
    idea ∈ fitnessIdeas t ∨ idea ∈ educationIdeas t ∨ idea ∈ lifestyleIdeas t := by
  rcases mock_of_category_cases t c with hcase|hcase|hcase|hcase|hcase|hcase|hcase <;>
    rw [hcase] at h
  · tauto
  · tauto
  · tauto
  · tauto
  · tauto
  · tauto
  · rw [mock_all_eq t] at h
    simp only [List.mem_cons, List.not_mem_nil, or_false] at h
    have m1 : (humorIdeas t).headI ∈ humorIdeas t := by simp [humorIdeas, List.headI]
    have m2 : (techIdeas t).headI ∈ techIdeas t := by simp [techIdeas, List.headI]
    have m3 : (financeIdeas t).headI ∈ financeIdeas t := by simp [financeIdeas, List.headI]
    have m4 : (fitnessIdeas t).headI ∈ fitnessIdeas t := by simp [fitnessIdeas, List.headI]
    have m5 : (educationIdeas t).headI ∈ educationIdeas t := by
      simp [educationIdeas, List.headI]
    rcases h with h0|h0|h0|h0|h0 <;> subst h0 <;> tauto

lemma all_category_eq (t c d : String)
    (hm : (generate_mock_content_ideas t c).map ContentIdea.category = [d, d]) :
    ∀ idea ∈ generate_mock_content_ideas t c, idea.category = d := by
  intro idea h
  have hx := List.mem_map_of_mem ContentIdea.category h
  rw [hm] at hx
  simpa using hx

/-! ## Claim theorems -/

/-- C2: for every topic and every specific category in the closed set
{humor, tech, finance, fitness, education, lifestyle}, the fallback generator
returns exactly 2 ideas, and every returned idea carries the requested
category in its `category` field. -/
theorem mock_specific_category_two_matching (t c : String)
    (hc : c ∈ ["humor", "tech", "finance", "fitness", "education", "lifestyle"]) :
    (generate_mock_content_ideas t c).length = 2 ∧
    ∀ idea ∈ generate_mock_content_ideas t c, idea.category = c := by
  simp only [List.mem_cons, List.not_mem_nil, or_false] at hc
  obtain rfl|rfl|rfl|rfl|rfl|rfl := hc <;>
    exact ⟨rfl, all_category_eq t _ _ rfl⟩

/-- C2 witness: concrete instantiation at topic `"x"`, category `"tech"`. -/
theorem mock_specific_category_two_matching_witness :
    (generate_mock_content_ideas "x" "tech").length = 2 ∧
    ∀ idea ∈ generate_mock_content_ideas "x" "tech", idea.category = "tech" :=
  mock_specific_category_two_matching "x" "tech" (by decide)

/-- C3: for every topic, the fallback generator with category `"all"` returns
exactly 5 ideas, whose category fields are 5 pairwise-distinct categories, and
the output is exactly the first idea of each category list of the template
table, in enumeration order, capped at 5. -/
theorem mock_all_five_distinct (t : String) :
    (generate_mock_content_ideas t "all").length = 5 ∧
    ((generate_mock_content_ideas t "all").map ContentIdea.category).Nodup ∧
    generate_mock_content_ideas t "all" =
      (((templates t).map Prod.snd).map List.headI).take 5 := by
  refine ⟨rfl, ?_, rfl⟩
  rw [mock_all_map_category t]
  decide

/-- C5: the fallback generator at topic `"drones"`, category `"tech"` returns
exactly 2 ideas, the first titled `"5 drones Hacks You Never Knew Existed"`. -/
theorem mock_drones_tech :
    (generate_mock_content_ideas "drones" "tech").length = 2 ∧
    (generate_mock_content_ideas "drones" "tech").headI.title =
      "5 drones Hacks You Never Knew Existed" := by
  decide

/-- C8: the fallback generator is a total deterministic function of
(topic, category): on every input two calls agree, and it always produces a
well-formed result list (length 2 for a specific or unknown category, 5 for
`"all"`). -/
theorem mock_total_deterministic (t c : String) :
    generate_mock_content_ideas t c = generate_mock_content_ideas t c ∧
    ((generate_mock_content_ideas t c).length = 2 ∨
      (generate_mock_content_ideas t c).length = 5) := by
  refine ⟨rfl, ?_⟩
  rcases mock_of_category_cases t c with hcase|hcase|hcase|hcase|hcase|hcase|hcase <;>
    rw [hcase] <;> first
      | exact Or.inl rfl
      | exact Or.inr rfl

/-- C9: for every topic and every category string outside the template table
and different from `"all"`, the fallback generator does not fail: it returns
the 2 humor-category template ideas, whose category fields are `"humor"`. -/
theorem mock_unknown_category_humor (t c : String) (hall : c ≠ "all")
    (hmem : c ∉ ["humor", "tech", "finance", "fitness", "education", "lifestyle"]) :
    generate_mock_content_ideas t c = humorIdeas t ∧
    (generate_mock_content_ideas t c).length = 2 ∧
    ∀ idea ∈ generate_mock_content_ideas t c, idea.category = "humor" := by
  simp only [List.mem_cons, List.not_mem_nil, or_false, not_or] at hmem
  obtain ⟨h1, h2, h3, h4, h5, h6⟩ := hmem
  have heq : generate_mock_content_ideas t c = humorIdeas t := by
    unfold generate_mock_content_ideas
    rw [if_pos hall, lookup_templates_none t c h1 h2 h3 h4 h5 h6]
    rfl
  refine ⟨heq, by rw [heq]; rfl, ?_⟩
  intro idea h
  rw [heq] at h
  simp only [humorIdeas, List.mem_cons, List.not_mem_nil, or_false] at h
  rcases h with rfl|rfl <;> rfl

/-- C9 witness: concrete instantiation at topic `"x"`, category `"gardening"`. -/
theorem mock_unknown_category_humor_witness :
    generate_mock_content_ideas "x" "gardening" = humorIdeas "x" ∧
    (generate_mock_content_ideas "x" "gardening").length = 2 ∧
    ∀ idea ∈ generate_mock_content_ideas "x" "gardening", idea.category = "humor" :=
  mock_unknown_category_humor "x" "gardening" (by decide) (by decide)

/-- C10: for every topic, the fallback generator with category `"all"` returns
ideas whose category fields are exactly `humor, tech, finance, fitness,
education` in that order; in particular no `"lifestyle"` idea ever appears. -/
theorem mock_all_category_order (t : String) :
    (generate_mock_content_ideas t "all").map ContentIdea.category =
      ["humor", "tech", "finance", "fitness", "education"] ∧
    ∀ idea ∈ generate_mock_content_ideas t "all", idea.category ≠ "lifestyle" := by
  refine ⟨mock_all_map_category t, ?_⟩
  intro idea h hcontra
  have hm : idea.category ∈ (generate_mock_content_ideas t "all").map ContentIdea.category :=
    List.mem_map_of_mem ContentIdea.category h
  rw [mock_all_map_category t, hcontra] at hm
  simp at hm

/-- C10 witness: concrete instantiation at topic `"x"` and the first returned
idea. -/
theorem mock_all_category_order_witness :
    ((generate_mock_content_ideas "x" "all").map ContentIdea.category =
      ["humor", "tech", "finance", "fitness", "education"]) ∧
    (generate_mock_content_ideas "x" "all").headI.category ≠ "lifestyle" :=
  ⟨(mock_all_category_order "x").1,
    (mock_all_category_order "x").2 (generate_mock_content_ideas "x" "all").headI (by decide)⟩

lemma str_append_empty (a : String) : a ++ "" = a := by
  cases a
  simp [String.append]

/-- C4: for every topic and category, every idea returned by the fallback
generator contains the topic as a substring of its title and of its
description (witnessed by an explicit decomposition prefix ++ topic ++
suffix). -/
theorem mock_topic_in_title_and_description (t c : String) (idea : ContentIdea)
    (h : idea ∈ generate_mock_content_ideas t c) :
    (∃ p s, idea.title = p ++ t ++ s) ∧ (∃ p s, idea.description = p ++ t ++ s) := by
  rcases mem_mock_cases t c idea h with hm|hm|hm|hm|hm|hm
  · simp only [humorIdeas, List.mem_cons, List.not_mem_nil, or_false] at hm
    rcases hm with rfl|rfl
    · exact ⟨⟨"When ", " Goes Hilariously Wrong", rfl⟩,
        ⟨"A compilation of funny ", " fails that everyone can relate to.", rfl⟩⟩
    · exact ⟨⟨"", " Expectations vs. Reality", rfl⟩,
        ⟨"Contrasting what people expect from ", " with the often-amusing reality.", rfl⟩⟩
  · simp only [techIdeas, List.mem_cons, List.not_mem_nil, or_false] at hm
    rcases hm with rfl|rfl
    · exact ⟨⟨"5 ", " Hacks You Never Knew Existed", rfl⟩,
        ⟨"Quick technical tips to master ", " that most people don\x27t know about.", rfl⟩⟩
    · exact ⟨⟨"The Future of ", ": 2025 Predictions", rfl⟩,
        ⟨"Analysis of upcoming trends and technologies related to ", ".", rfl⟩⟩
  · simp only [financeIdeas, List.mem_cons, List.not_mem_nil, or_false] at hm
    rcases hm with rfl|rfl
    · exact ⟨⟨"How ", " Can Save You $1000 This Month", rfl⟩,
        ⟨"Practical financial strategies using ", " for immediate savings.", rfl⟩⟩
    · exact ⟨⟨"Investing in ", ": Beginner\x27s Guide", rfl⟩,
        ⟨"Step-by-step approach to understanding investment opportunities in ", ".", rfl⟩⟩
  · simp only [fitnessIdeas, List.mem_cons, List.not_mem_nil, or_false] at hm
    rcases hm with rfl|rfl
    · exact ⟨⟨"10-Minute ", " Workout for Busy People", rfl⟩,
        ⟨"Quick and effective workout routine incorporating ", " principles.", rfl⟩⟩
    · exact ⟨⟨"", " Transformation Challenge", rfl⟩,
        ⟨"30-day fitness journey using ", " methods with visible results.", rfl⟩⟩
  · simp only [educationIdeas, List.mem_cons, List.not_mem_nil, or_false] at hm
    rcases hm with rfl|rfl
    · exact ⟨⟨"", " Explained in 60 Seconds", rfl⟩,
        ⟨"Quick, easy-to-understand explanation of ", " for beginners.", rfl⟩⟩
    · exact ⟨⟨"What Schools Don\x27t Teach About ", "",
          (str_append_empty ("What Schools Don\x27t Teach About " ++ t)).symm⟩,
        ⟨"Lesser-known but important facts about ", " that aren\x27t in textbooks.", rfl⟩⟩
  · simp only [lifestyleIdeas, List.mem_cons, List.not_mem_nil, or_false] at hm
    rcases hm with rfl|rfl
    · exact ⟨⟨"Day in the Life: ", " Edition", rfl⟩,
        ⟨"Follow-along vlog showing how ", " integrates into daily routines.", rfl⟩⟩
    · exact ⟨⟨"", " Room Makeover", rfl⟩,
        ⟨"Transforming a space with ", "-inspired aesthetics and functionality.", rfl⟩⟩

/-- C4 witness: concrete instantiation at topic `"x"`, category `"humor"`,
first returned idea. -/
theorem mock_topic_in_title_and_description_witness :
    (∃ p s, (generate_mock_content_ideas "x" "humor").headI.title = p ++ "x" ++ s) ∧
    (∃ p s, (generate_mock_content_ideas "x" "humor").headI.description = p ++ "x" ++ s) :=
  mock_topic_in_title_and_description "x" "humor"
    (generate_mock_content_ideas "x" "humor").headI (by decide)

/-- C7 counterexample: at the 27-character topic
`"abcdefghijklmnopqrstuvwxyz0"` and category `"finance"`, the first idea the
fallback generator returns has a title of 61 characters, exceeding the claimed
60-character bound. -/
theorem mock_title_over_sixty :
    (generate_mock_content_ideas "abcdefghijklmnopqrstuvwxyz0" "finance").headI ∈
      generate_mock_content_ideas "abcdefghijklmnopqrstuvwxyz0" "finance" ∧
    60 < (generate_mock_content_ideas
      "abcdefghijklmnopqrstuvwxyz0" "finance").headI.title.length := by
  decide

/-- C7 amended: for every topic and category, every idea returned by the
fallback generator has a virality in {low, medium, high}, a content_type in
{video, reel, story, post, tutorial, series, vlog}, and a title of at most
34 characters more than the topic (hence at most 60 characters whenever the
topic has at most 26 characters). -/
theorem mock_idea_field_bounds (t c : String) (idea : ContentIdea)
    (h : idea ∈ generate_mock_content_ideas t c) :
    idea.virality ∈ ["low", "medium", "high"] ∧
    idea.content_type ∈ ["video", "reel", "story", "post", "tutorial", "series", "vlog"] ∧
    idea.title.length ≤ t.length + 34 := by
  rcases mem_mock_cases t c idea h with hm|hm|hm|hm|hm|hm
  · simp only [humorIdeas, List.mem_cons, List.not_mem_nil, or_false] at hm
    rcases hm with rfl|rfl
    · exact ⟨by simp, by simp, title_len_mid "When " " Goes Hilariously Wrong" t (by decide)⟩
    · exact ⟨by simp, by simp, title_len_start " Expectations vs. Reality" t (by decide)⟩
  · simp only [techIdeas, List.mem_cons, List.not_mem_nil, or_false] at hm
    rcases hm with rfl|rfl
    · exact ⟨by simp, by simp, title_len_mid "5 " " Hacks You Never Knew Existed" t (by decide)⟩
    · exact ⟨by simp, by simp, title_len_mid "The Future of " ": 2025 Predictions" t (by decide)⟩
  · simp only [financeIdeas, List.mem_cons, List.not_mem_nil, or_false] at hm
    rcases hm with rfl|rfl
    · exact ⟨by simp, by simp,
        title_len_mid "How " " Can Save You $1000 This Month" t (by decide)⟩
    · exact ⟨by simp, by simp,
        title_len_mid "Investing in " ": Beginner\x27s Guide" t (by decide)⟩
  · simp only [fitnessIdeas, List.mem_cons, List.not_mem_nil, or_false] at hm
    rcases hm with rfl|rfl
    · exact ⟨by simp, by simp,
        title_len_mid "10-Minute " " Workout for Busy People" t (by decide)⟩
    · exact ⟨by simp, by simp, title_len_start " Transformation Challenge" t (by decide)⟩
  · simp only [educationIdeas, List.mem_cons, List.not_mem_nil, or_false] at hm
    rcases hm with rfl|rfl
    · exact ⟨by simp, by simp, title_len_start " Explained in 60 Seconds" t (by decide)⟩
    · exact ⟨by simp, by simp,
        title_len_end "What Schools Don\x27t Teach About " t (by decide)⟩
  · simp only [lifestyleIdeas, List.mem_cons, List.not_mem_nil, or_false] at hm
    rcases hm with rfl|rfl
    · exact ⟨by simp, by simp, title_len_mid "Day in the Life: " " Edition" t (by decide)⟩
    · exact ⟨by simp, by simp, title_len_start " Room Makeover" t (by decide)⟩

/-- C7 witness: concrete instantiation at topic `"x"`, category `"tech"`,
first returned idea. -/
theorem mock_idea_field_bounds_witness :
    (generate_mock_content_ideas "x" "tech").headI.virality ∈ ["low", "medium", "high"] ∧
    (generate_mock_content_ideas "x" "tech").headI.content_type ∈
      ["video", "reel", "story", "post", "tutorial", "series", "vlog"] ∧
    (generate_mock_content_ideas "x" "tech").headI.title.length ≤ "x".length + 34 :=
  mock_idea_field_bounds "x" "tech" (generate_mock_content_ideas "x" "tech").headI (by decide)

/-- C1: `generate_content_ideas` never surfaces an error to its caller: on
every environment and every outcome of the external interaction it returns
either a value extracted from the external payload or exactly the fallback
(mock) ideas for (topic, category); in particular a missing/empty credential,
a failed client initialization, a failed external call, and a payload of
unusable shape all yield the fallback ideas. -/
theorem generate_content_ideas_no_error (apiKey : Option String) (client : Option Unit)
    (outcome : ApiOutcome) (t c : String) :
    ((∃ j, generate_content_ideas apiKey client outcome t c = GenResult.api j) ∨
      generate_content_ideas apiKey client outcome t c =
        GenResult.mock (generate_mock_content_ideas t c)) ∧
    ((keyFalsy apiKey = true ∨ client = none ∨ (∃ m, outcome = ApiOutcome.failure m)) →
      generate_content_ideas apiKey client outcome t c =
        GenResult.mock (generate_mock_content_ideas t c)) ∧
    (∀ p, outcome = ApiOutcome.success p → badShape p = true →
      generate_content_ideas apiKey client outcome t c =
        GenResult.mock (generate_mock_content_ideas t c)) := by
  unfold generate_content_ideas
  by_cases hfail : (keyFalsy apiKey || client.isNone) = true
  · rw [if_pos hfail]
    exact ⟨Or.inr rfl, fun _ => rfl, fun p hp hb => rfl⟩
  · rw [if_neg hfail]
    rw [Bool.or_eq_true] at hfail
    push_neg at hfail
    obtain ⟨hk, hcl⟩ := hfail
    cases outcome with
    | failure m =>
      refine ⟨Or.inr rfl, fun _ => rfl, ?_⟩
      intro p hp
      exact absurd hp (by intro hc0; cases hc0)
    | success p =>
      have hnot : ¬(keyFalsy apiKey = true ∨ client = none ∨
          (∃ m, ApiOutcome.success p = ApiOutcome.failure m)) := by
        rintro (h0 | h0 | ⟨m, h0⟩)
        · exact hk h0
        · exact hcl (by rw [h0]; rfl)
        · cases h0
      cases p with
      | null => exact ⟨Or.inr rfl, fun h0 => absurd h0 hnot, fun p' hp' hb => rfl⟩
      | bool b => exact ⟨Or.inr rfl, fun h0 => absurd h0 hnot, fun p' hp' hb => rfl⟩
      | num n => exact ⟨Or.inr rfl, fun h0 => absurd h0 hnot, fun p' hp' hb => rfl⟩
      | str s => exact ⟨Or.inr rfl, fun h0 => absurd h0 hnot, fun p' hp' hb => rfl⟩
      | arr elems =>
        refine ⟨Or.inl ⟨Json.arr elems, rfl⟩, fun h0 => absurd h0 hnot, ?_⟩
        intro p' hp' hb
        injection hp' with he
        rw [← he] at hb
        simp [badShape] at hb
      | obj fields =>
        cases hl : fields.lookup "ideas" with
        | some v =>
          refine ⟨Or.inl ⟨v, by simp only [hl]⟩, fun h0 => absurd h0 hnot, ?_⟩
          intro p' hp' hb
          injection hp' with he
          rw [← he] at hb
          simp [badShape, hl] at hb
        | none =>
          exact ⟨Or.inr (by simp only [hl]), fun h0 => absurd h0 hnot,
            fun p' hp' hb => by simp only [hl]⟩

/-- C1 witness: concrete instantiation with a missing credential and a failed
external call. -/
theorem generate_content_ideas_no_error_witness :
    generate_content_ideas none none (ApiOutcome.failure "boom") "x" "tech" =
      GenResult.mock (generate_mock_content_ideas "x" "tech") :=
  (generate_content_ideas_no_error none none (ApiOutcome.failure "boom") "x" "tech").2.1
    (Or.inl rfl)

/-- C6 counterexample: at a well-configured environment and the payload
`{"ideas": 0}` — an object whose `ideas` field is not an array, hence a
payload outside the two shapes the claim says are accepted —
`generate_content_ideas` returns the raw value `0` from the payload, not the
fallback ideas. -/
theorem parse_nonarray_ideas_field_returned :
    generate_content_ideas (some "k") (some ())
        (ApiOutcome.success (Json.obj [("ideas", Json.num 0)])) "x" "tech" =
      GenResult.api (Json.num 0) ∧
    GenResult.api (Json.num 0) ≠
      GenResult.mock (generate_mock_content_ideas "x" "tech") := by
  refine ⟨rfl, ?_⟩
  intro h
  exact GenResult.noConfusion h

/-- C6 amended: with a configured environment, response handling returns a
direct array as-is, returns the value of an `ideas` field of an object
whatever the shape of that value (even when it is not an array), and falls
back to the mock ideas exactly when the payload is neither an array nor an
object containing an `ideas` field. -/
theorem parse_shapes_amended (apiKey : Option String) (client : Option Unit)
    (p : Json) (t c : String)
    (hkey : keyFalsy apiKey = false) (hclient : client.isNone = false) :
    (∀ elems, p = Json.arr elems →
      generate_content_ideas apiKey client (ApiOutcome.success p) t c =
        GenResult.api (Json.arr elems)) ∧
    (∀ fields v, p = Json.obj fields → fields.lookup "ideas" = some v →
      generate_content_ideas apiKey client (ApiOutcome.success p) t c =
        GenResult.api v) ∧
    (badShape p = true →
      generate_content_ideas apiKey client (ApiOutcome.success p) t c =
        GenResult.mock (generate_mock_content_ideas t c)) := by
  have hcond : ¬((keyFalsy apiKey || client.isNone) = true) := by
    rw [hkey, hclient]
    simp
  unfold generate_content_ideas
  rw [if_neg hcond]
  refine ⟨?_, ?_, ?_⟩
  · rintro elems rfl
    rfl
  · rintro fields v rfl hl
    simp only [hl]
  · intro hb
    cases p with
    | null => rfl
    | bool b => rfl
    | num n => rfl
    | str s => rfl
    | arr elems => simp [badShape] at hb
    | obj fields =>
      cases hl : fields.lookup "ideas" with
      | some v => simp [badShape, hl] at hb
      | none => simp only [hl]

/-- C6 amended witness: concrete instantiation at a direct-array payload. -/
theorem parse_shapes_amended_witness :
    generate_content_ideas (some "k") (some ())
        (ApiOutcome.success (Json.arr [])) "x" "all" = GenResult.api (Json.arr []) :=
  (parse_shapes_amended (some "k") (some ()) (Json.arr []) "x" "all" rfl rfl).1 [] rfl
